import Mathlib

/-!
Verification of `examples/target_program/target_program.cpp` from the
`proc_memory` repository.

The program is a single translation unit: `main` calls
`allocate_mem<uint64_t>(0x00007FF49E872000)`, writes `42` through the
returned pointer without checking it, prints the pointer and the pointed-to
value, pauses on `std::cin.get()`, prints both again, and pauses once more
before exiting. `allocate_mem` has two platform variants: on Windows it
calls `VirtualAlloc((LPVOID)address, sizeof(T), MEM_COMMIT, PAGE_READWRITE)`;
on POSIX it calls
`mmap((void*)address, sizeof(T), PROT_WRITE | PROT_READ, 0, open("/dev/null", O_RDWR), 0)`.

The OS is modelled as an oracle `OsResponse := Option Nat`: `some base`
means the request is granted and the primitive returns pointer `base`;
`none` means the OS declines, and the primitive returns its documented
failure sentinel (`NULL` for `VirtualAlloc`, `MAP_FAILED = (void*)-1`,
i.e. all-ones, for `mmap`). `main` is embedded as a straight-line function
producing the trace of its observable events together with the final memory
store; the two console pauses are points where an external agent may
rewrite memory, modelled by the store transformers `ext1` and `ext2`.
-/

namespace ProcMemory

/-- Machine word modulus for `uint64_t` values. -/
def U64MOD : Nat := 2 ^ 64

/-- The x86-64 page size, the granularity at which both `VirtualAlloc` and
`mmap` allocate. -/
def pageSize : Nat := 4096

/-- `sizeof(uint64_t)`: the element size `main` instantiates
`allocate_mem<T>` with. -/
def sizeofU64 : Nat := 8

/-- The null pointer, the failure sentinel of `VirtualAlloc`. -/
def NULLPTR : Nat := 0

/-- The failure sentinel of `mmap`: `MAP_FAILED = (void *)-1`, the all-ones
pointer as a 64-bit address. -/
def MAP_FAILED : Nat := 2 ^ 64 - 1

/-- Windows `MEM_COMMIT` allocation-type flag. -/
def MEM_COMMIT : Nat := 0x1000

/-- Windows `PAGE_READWRITE` protection constant. -/
def PAGE_READWRITE : Nat := 0x04

/-- POSIX `PROT_READ` protection bit. -/
def PROT_READ : Nat := 1

/-- POSIX `PROT_WRITE` protection bit. -/
def PROT_WRITE : Nat := 2

/-- POSIX `O_RDWR` open flag. -/
def O_RDWR : Nat := 2

/-- POSIX `MAP_SHARED` mapping-type flag. -/
def MAP_SHARED : Nat := 1

/-- POSIX `MAP_PRIVATE` mapping-type flag. -/
def MAP_PRIVATE : Nat := 2

/-- POSIX `MAP_FIXED` flag demanding placement exactly at the hint address. -/
def MAP_FIXED : Nat := 0x10

/-- The OS's answer to one memory request: `some base` grants memory whose
returned pointer is `base`, `none` declines the request. -/
def OsResponse : Type := Option Nat

/-- Arguments of the `VirtualAlloc` call made by the Windows variant. -/
structure VirtualAllocCall where
  lpAddress : Nat
  dwSize : Nat
  flAllocationType : Nat
  flProtect : Nat
  deriving DecidableEq

/-- Arguments of the `mmap` call made by the POSIX variant. -/
structure MmapCall where
  addr : Nat
  length : Nat
  prot : Nat
  flags : Nat
  fd : Nat
  offset : Nat
  deriving DecidableEq

/-- File-descriptor events performed by the POSIX variant. -/
inductive FdEvent where
  | openFd (path : String) (flags : Nat) (fd : Nat)
  | closeFd (fd : Nat)
  deriving DecidableEq

/-- Whether an fd event is a close. -/
def FdEvent.isClose : FdEvent → Bool
  | .closeFd _ => true
  | _ => false

/-- Semantics of `VirtualAlloc` under the OS oracle: the granted pointer on
success, `NULL` on failure. -/
def VirtualAlloc (c : VirtualAllocCall) (os : OsResponse) : Nat :=
  Option.getD os NULLPTR

/-- Semantics of `mmap` under the OS oracle: the granted pointer on success,
`MAP_FAILED` on failure. -/
def mmap (c : MmapCall) (os : OsResponse) : Nat :=
  Option.getD os MAP_FAILED

/-- Windows variant of `allocate_mem`, from the source:
`VirtualAlloc((LPVOID)address, sizeof(T), MEM_COMMIT, PAGE_READWRITE)`.
Returns the call made together with the resulting pointer. -/
def allocate_mem_win (address sizeT : Nat) (os : OsResponse) :
    VirtualAllocCall × Nat :=
  let c : VirtualAllocCall :=
    { lpAddress := address, dwSize := sizeT,
      flAllocationType := MEM_COMMIT, flProtect := PAGE_READWRITE }
  (c, VirtualAlloc c os)

/-- POSIX variant of `allocate_mem`, from the source:
`mmap((void*)address, sizeof(T), PROT_WRITE | PROT_READ, 0, open("/dev/null", O_RDWR), 0)`.
`fd` is the descriptor the OS assigns to the `open` call. Returns the
fd-event trace of the call, the `mmap` call made, and the resulting
pointer. -/
def allocate_mem_posix (address sizeT fd : Nat) (os : OsResponse) :
    List FdEvent × MmapCall × Nat :=
  let c : MmapCall :=
    { addr := address, length := sizeT, prot := PROT_WRITE ||| PROT_READ,
      flags := 0, fd := fd, offset := 0 }
  ([FdEvent.openFd "/dev/null" O_RDWR fd], c, mmap c os)

/-- The two platform variants of the build. -/
inductive OsKind where
  | windows
  | posix
  deriving DecidableEq

/-- The failure sentinel each platform's allocation primitive returns. -/
def sentinel : OsKind → Nat
  | .windows => NULLPTR
  | .posix => MAP_FAILED

/-- Result of `allocate_mem<T>(address)` on platform `p` under OS answer
`os`: the granted pointer, or the platform's failure sentinel. -/
def allocate_mem (p : OsKind) (address sizeT : Nat) (os : OsResponse) : Nat :=
  Option.getD os (sentinel p)

/-- Memory, as a map from addresses to the `uint64_t` value read there. -/
def Store : Type := Nat → Nat

/-- The all-zero store. -/
def store0 : Store := fun _ => 0

/-- Effect of the store `*ptr = v` for a `uint64_t` pointer. -/
def writeU64 (m : Store) (ptr v : Nat) : Store :=
  fun a => if a = ptr then v % U64MOD else m a

/-- Observable events of a run of `main`. -/
inductive Event where
  | alloc (addr size ret : Nat)
  | write (ptr v : Nat)
  | printAddrVal (ptr v : Nat)
  | printMsg (s : String)
  | waitInput
  | reportError (s : String)
  deriving DecidableEq

/-- Whether an event is an allocation. -/
def Event.isAlloc : Event → Bool
  | .alloc _ _ _ => true
  | _ => false

/-- Whether an event is a blocking wait on console input. -/
def Event.isWait : Event → Bool
  | .waitInput => true
  | _ => false

/-- Whether an event is an error report. -/
def Event.isReport : Event → Bool
  | .reportError _ => true
  | _ => false

/-- The (pointer, value) pairs printed by `cout << number << " - " << *number`
lines, in order. -/
def printedPairs (t : List Event) : List (Nat × Nat) :=
  t.filterMap fun e =>
    match e with
    | .printAddrVal ptr v => some (ptr, v)
    | _ => none

/-- The target address hard-coded in `main`: `0x00007FF49E872000`. -/
def targetAddr : Nat := 0x00007FF49E872000

/-- The body of `main`, embedded as straight-line code. `argc`/`argv` are
the process arguments, `os` the OS's answer to the single allocation,
`mem0` the contents of memory at program start, and `ext1`, `ext2` the
rewrites an external agent performs on memory while the program is blocked
on each of the two `std::cin.get()` pauses. Returns the event trace and the
final store. -/
def mainRun (p : OsKind) (argc : Nat) (argv : List String) (os : OsResponse)
    (mem0 : Store) (ext1 ext2 : Store → Store) : List Event × Store :=
  let addr : Nat := targetAddr
  let number : Nat := allocate_mem p addr sizeofU64 os
  let mem1 : Store := writeU64 mem0 number 42
  let mem2 : Store := ext1 mem1
  let mem3 : Store := ext2 mem2
  ([Event.alloc addr sizeofU64 number,
    Event.write number 42,
    Event.printAddrVal number (mem1 number),
    Event.printMsg "Press ENTER to update value",
    Event.waitInput,
    Event.printAddrVal number (mem2 number),
    Event.printMsg "Press ENTER to exit",
    Event.waitInput], mem3)

theorem allocate_mem_windows_eq (a s : Nat) (os : OsResponse) :
    allocate_mem .windows a s os = (allocate_mem_win a s os).2 := rfl

theorem allocate_mem_posix_eq (a s fd : Nat) (os : OsResponse) :
    allocate_mem .posix a s os = (allocate_mem_posix a s fd os).2.2 := rfl

/-- Trace of a run where the OS grants the request with pointer `base` and
no external agent edits memory during the first pause. -/
theorem mainRun_trace_success (p : OsKind) (argc : Nat) (argv : List String)
    (base : Nat) (mem0 : Store) (ext2 : Store → Store) :
    (mainRun p argc argv (some base) mem0 id ext2).1 =
      [Event.alloc targetAddr sizeofU64 base,
       Event.write base 42,
       Event.printAddrVal base 42,
       Event.printMsg "Press ENTER to update value",
       Event.waitInput,
       Event.printAddrVal base 42,
       Event.printMsg "Press ENTER to exit",
       Event.waitInput] := by
  simp [mainRun, allocate_mem, writeU64, U64MOD]

/-- C1: on a run where the OS grants the allocation at the requested
address `0x00007FF49E872000` and no external agent rewrites memory during
the first pause (`ext1 = id`), the write of 42 is returned by both reads:
the pointer/value print before the pause and the one after it both show
value 42 at the requested address. -/
theorem c1_success_write42_read42_twice (p : OsKind) (argc : Nat)
    (argv : List String) (mem0 : Store) (ext2 : Store → Store) :
    let t := (mainRun p argc argv (some targetAddr) mem0 id ext2).1
    targetAddr = 0x00007FF49E872000
    ∧ t.get? 0 = some (Event.alloc targetAddr sizeofU64 targetAddr)
    ∧ t.get? 2 = some (Event.printAddrVal targetAddr 42)
    ∧ t.get? 5 = some (Event.printAddrVal targetAddr 42) := by
  refine ⟨rfl, ?_, ?_, ?_⟩ <;> rw [mainRun_trace_success] <;> rfl

/-- C1 witness: the concrete POSIX run with all-zero initial memory. -/
theorem c1_witness :
    (let t := (mainRun .posix 0 [] (some targetAddr) store0 id id).1
     targetAddr = 0x00007FF49E872000
     ∧ t.get? 0 = some (Event.alloc targetAddr sizeofU64 targetAddr)
     ∧ t.get? 2 = some (Event.printAddrVal targetAddr 42)
     ∧ t.get? 5 = some (Event.printAddrVal targetAddr 42)) :=
  c1_success_write42_read42_twice .posix 0 [] store0 id

/-- C2: the allocation result is never checked: on every OS response the
event immediately following the allocation (trace index 1) is the write of
42 through whatever pointer the allocator returned, and when the OS denies
the request that pointer is the platform's failure sentinel. -/
theorem c2_unchecked_dereference (p : OsKind) (argc : Nat)
    (argv : List String) (os : OsResponse) (mem0 : Store)
    (ext1 ext2 : Store → Store) :
    let number := allocate_mem p targetAddr sizeofU64 os
    let t := (mainRun p argc argv os mem0 ext1 ext2).1
    t.get? 0 = some (Event.alloc targetAddr sizeofU64 number)
    ∧ t.get? 1 = some (Event.write number 42)
    ∧ allocate_mem p targetAddr sizeofU64 none = sentinel p :=
  ⟨rfl, rfl, rfl⟩

/-- C2 witness: the concrete POSIX run in which the OS denies the request,
so the unguarded write at trace index 1 goes through `MAP_FAILED`. -/
theorem c2_witness :
    (let number := allocate_mem .posix targetAddr sizeofU64 none
     let t := (mainRun .posix 0 [] none store0 id id).1
     t.get? 0 = some (Event.alloc targetAddr sizeofU64 number)
     ∧ t.get? 1 = some (Event.write number 42)
     ∧ allocate_mem .posix targetAddr sizeofU64 none = sentinel .posix) :=
  c2_unchecked_dereference .posix 0 [] none store0 id id

/-- C3 counterexample: on the POSIX build with the OS denying the request,
the allocator does return the sentinel, but the run reports no error and
does dereference the invalid pointer: the event after the allocation writes
42 through `MAP_FAILED`, there is no error-report event anywhere in the
trace, and the program still runs through all eight events instead of
terminating early. -/
theorem c3_counterexample :
    allocate_mem .posix targetAddr sizeofU64 none = MAP_FAILED
    ∧ (mainRun .posix 0 [] none store0 id id).1.get? 1
        = some (Event.write MAP_FAILED 42)
    ∧ (mainRun .posix 0 [] none store0 id id).1.countP Event.isReport = 0
    ∧ (mainRun .posix 0 [] none store0 id id).1.length = 8 :=
  ⟨rfl, rfl, rfl, rfl⟩

/-- C3 amended: if the OS denies the memory request, the allocator returns
the platform failure sentinel, but the caller neither reports
`AllocationFailed` nor terminates without using the allocation: it writes
42 through the sentinel immediately after the allocation, emits no
error-report event, and runs to completion. -/
theorem c3_denied_sentinel_no_report (p : OsKind) (argc : Nat)
    (argv : List String) (mem0 : Store) (ext1 ext2 : Store → Store) :
    let t := (mainRun p argc argv none mem0 ext1 ext2).1
    allocate_mem p targetAddr sizeofU64 none = sentinel p
    ∧ t.get? 1 = some (Event.write (sentinel p) 42)
    ∧ t.countP Event.isReport = 0
    ∧ t.length = 8 :=
  ⟨rfl, rfl, rfl, rfl⟩

/-- C3 witness: the concrete denied run on the Windows build, where the
sentinel written through is the null pointer. -/
theorem c3_witness :
    (let t := (mainRun .windows 0 [] none store0 id id).1
     allocate_mem .windows targetAddr sizeofU64 none = sentinel .windows
     ∧ t.get? 1 = some (Event.write (sentinel .windows) 42)
     ∧ t.countP Event.isReport = 0
     ∧ t.length = 8) :=
  c3_denied_sentinel_no_report .windows 0 [] store0 id id

/-- C4 counterexample: the POSIX variant does not return a null-equivalent
handle on failure: it returns `mmap`'s sentinel `MAP_FAILED`, the all-ones
pointer `(void *)-1`, which differs from the null pointer. -/
theorem c4_counterexample :
    (allocate_mem_posix targetAddr sizeofU64 3 none).2.2 = MAP_FAILED
    ∧ MAP_FAILED ≠ NULLPTR :=
  ⟨rfl, by decide⟩

/-- C4 amended: on failure the Windows variant returns the null pointer
(`VirtualAlloc` returns `NULL`), while the POSIX variant returns `mmap`'s
distinct sentinel `MAP_FAILED = (void *)-1` (all ones), which is not a
null-equivalent value. -/
theorem c4_failure_sentinels (addr s fd : Nat) :
    (allocate_mem_win addr s none).2 = NULLPTR
    ∧ (allocate_mem_posix addr s fd none).2.2 = MAP_FAILED
    ∧ NULLPTR = 0
    ∧ MAP_FAILED = 2 ^ 64 - 1
    ∧ MAP_FAILED ≠ NULLPTR :=
  ⟨rfl, rfl, rfl, rfl, by decide⟩

/-- C4 amended witness: the sentinels at the program's concrete request. -/
theorem c4_witness :
    (allocate_mem_win targetAddr sizeofU64 none).2 = NULLPTR
    ∧ (allocate_mem_posix targetAddr sizeofU64 3 none).2.2 = MAP_FAILED
    ∧ NULLPTR = 0
    ∧ MAP_FAILED = 2 ^ 64 - 1
    ∧ MAP_FAILED ≠ NULLPTR :=
  c4_failure_sentinels targetAddr sizeofU64 3

/-- C5 counterexample: the program does not block for line input exactly
once: the concrete successful run blocks on `std::cin.get()` twice. -/
theorem c5_counterexample :
    (mainRun .posix 0 [] (some targetAddr) store0 id id).1.countP
        Event.isWait = 2
    ∧ (mainRun .posix 0 [] (some targetAddr) store0 id id).1.countP
        Event.isWait ≠ 1 :=
  ⟨rfl, by decide⟩

/-- C5 amended: over any complete run the program blocks waiting for an
external line-input event exactly twice: once between the two prints and
once before exit. -/
theorem c5_two_suspension_points (p : OsKind) (argc : Nat)
    (argv : List String) (os : OsResponse) (mem0 : Store)
    (ext1 ext2 : Store → Store) :
    (mainRun p argc argv os mem0 ext1 ext2).1.countP Event.isWait = 2 :=
  rfl

/-- C5 amended witness: the concrete denied Windows run also waits twice. -/
theorem c5_witness :
    (mainRun .windows 1 ["a"] none store0 id id).1.countP Event.isWait = 2 :=
  c5_two_suspension_points .windows 1 ["a"] none store0 id id

/-- C6: every run prints the pointer/value pair exactly twice, both times
through the pointer returned by the single allocation (the trace has
exactly one allocation event), and the two prints straddle the pause: the
first line-input wait sits at trace index 4, the prefix strictly before it
holds exactly one print, and the suffix strictly after it holds exactly
one print, each through that same pointer. -/
theorem c6_prints_twice_same_handle (p : OsKind) (argc : Nat)
    (argv : List String) (os : OsResponse) (mem0 : Store)
    (ext1 ext2 : Store → Store) :
    let number := allocate_mem p targetAddr sizeofU64 os
    let t := (mainRun p argc argv os mem0 ext1 ext2).1
    (printedPairs t).map Prod.fst = [number, number]
    ∧ t.countP Event.isAlloc = 1
    ∧ t.get? 4 = some Event.waitInput
    ∧ (printedPairs (t.take 4)).map Prod.fst = [number]
    ∧ (printedPairs (t.drop 5)).map Prod.fst = [number] :=
  ⟨rfl, rfl, rfl, rfl, rfl⟩

/-- C6 witness: the concrete successful POSIX run. -/
theorem c6_witness :
    (let number := allocate_mem .posix targetAddr sizeofU64 (some targetAddr)
     let t := (mainRun .posix 0 [] (some targetAddr) store0 id id).1
     (printedPairs t).map Prod.fst = [number, number]
     ∧ t.countP Event.isAlloc = 1
     ∧ t.get? 4 = some Event.waitInput
     ∧ (printedPairs (t.take 4)).map Prod.fst = [number]
     ∧ (printedPairs (t.drop 5)).map Prod.fst = [number]) :=
  c6_prints_twice_same_handle .posix 0 [] (some targetAddr) store0 id id

/-- C7: both variants pass the caller's address and the element size
`sizeof(uint64_t) = 8` to the platform primitive with read/write
protection (`MEM_COMMIT`/`PAGE_READWRITE` on Windows,
`PROT_WRITE | PROT_READ` on POSIX), and whenever the requested range does
not straddle a page boundary the request resolves to the single page
containing the target address. -/
theorem c7_request_shape (addr fd : Nat) (os : OsResponse)
    (h : addr % pageSize + sizeofU64 ≤ pageSize) :
    let wc := (allocate_mem_win addr sizeofU64 os).1
    let pc := (allocate_mem_posix addr sizeofU64 fd os).2.1
    wc.lpAddress = addr ∧ wc.dwSize = sizeofU64
    ∧ wc.flAllocationType = MEM_COMMIT ∧ wc.flProtect = PAGE_READWRITE
    ∧ pc.addr = addr ∧ pc.length = sizeofU64
    ∧ pc.prot = (PROT_WRITE ||| PROT_READ)
    ∧ addr / pageSize = (addr + sizeofU64 - 1) / pageSize := by
  refine ⟨rfl, rfl, rfl, rfl, rfl, rfl, rfl, ?_⟩
  simp only [pageSize, sizeofU64] at h ⊢
  omega

/-- C7 witness: the program's concrete page-aligned request. -/
theorem c7_witness :
    targetAddr % pageSize + sizeofU64 ≤ pageSize
    ∧ (let wc := (allocate_mem_win targetAddr sizeofU64 none).1
       let pc := (allocate_mem_posix targetAddr sizeofU64 3 none).2.1
       wc.lpAddress = targetAddr ∧ wc.dwSize = sizeofU64
       ∧ wc.flAllocationType = MEM_COMMIT ∧ wc.flProtect = PAGE_READWRITE
       ∧ pc.addr = targetAddr ∧ pc.length = sizeofU64
       ∧ pc.prot = (PROT_WRITE ||| PROT_READ)
       ∧ targetAddr / pageSize = (targetAddr + sizeofU64 - 1) / pageSize) :=
  ⟨by decide, c7_request_shape targetAddr 3 none (by decide)⟩

/-- C8: the POSIX variant opens the null device read/write, feeds the
resulting descriptor to `mmap` as the mapping's backing store, and never
closes it: its fd-event trace is exactly one open of `/dev/null` with
`O_RDWR` and contains no close event. -/
theorem c8_devnull_fd_left_open (addr s fd : Nat) (os : OsResponse) :
    let r := allocate_mem_posix addr s fd os
    r.1 = [FdEvent.openFd "/dev/null" O_RDWR fd]
    ∧ r.2.1.fd = fd
    ∧ r.1.countP FdEvent.isClose = 0 :=
  ⟨rfl, rfl, rfl⟩

/-- C8 witness: the program's concrete POSIX allocation call. -/
theorem c8_witness :
    (let r := allocate_mem_posix targetAddr sizeofU64 3 (some targetAddr)
     r.1 = [FdEvent.openFd "/dev/null" O_RDWR 3]
     ∧ r.2.1.fd = 3
     ∧ r.1.countP FdEvent.isClose = 0) :=
  c8_devnull_fd_left_open targetAddr sizeofU64 3 (some targetAddr)

/-- C9: `main` consumes no command-line arguments: two runs differing only
in `argc`/`argv`, with the same OS response, initial memory and external
edits, produce identical traces and final memory. -/
theorem c9_args_ignored (p : OsKind) (argc argc' : Nat)
    (argv argv' : List String) (os : OsResponse) (mem0 : Store)
    (ext1 ext2 : Store → Store) :
    mainRun p argc argv os mem0 ext1 ext2
      = mainRun p argc' argv' os mem0 ext1 ext2 :=
  rfl

/-- C9 witness: two concrete invocations with different arguments. -/
theorem c9_witness :
    mainRun .posix 1 ["prog"] (some targetAddr) store0 id id
      = mainRun .posix 3 ["prog", "-v", "x"] (some targetAddr) store0 id id :=
  c9_args_ignored .posix 1 3 ["prog"] ["prog", "-v", "x"] (some targetAddr)
    store0 id id

/-- C10: the flags argument of the POSIX variant's `mmap` call is the
literal 0: `MAP_FIXED` is not set, and neither `MAP_SHARED` nor
`MAP_PRIVATE` is set, so the call never demands placement at the target
address and leaves the mapping type unspecified. -/
theorem c10_mmap_flags_zero (addr s fd : Nat) (os : OsResponse) :
    let c := (allocate_mem_posix addr s fd os).2.1
    c.flags = 0
    ∧ c.flags &&& MAP_FIXED = 0
    ∧ c.flags &&& (MAP_SHARED ||| MAP_PRIVATE) = 0 := by
  simp [allocate_mem_posix, MAP_FIXED, MAP_SHARED, MAP_PRIVATE]

/-- C10 witness: the program's concrete POSIX allocation call. -/
theorem c10_witness :
    (let c := (allocate_mem_posix targetAddr sizeofU64 3 none).2.1
     c.flags = 0
     ∧ c.flags &&& MAP_FIXED = 0
     ∧ c.flags &&& (MAP_SHARED ||| MAP_PRIVATE) = 0) :=
  c10_mmap_flags_zero targetAddr sizeofU64 3 none

end ProcMemory
